import Mathlib

/-
Verification of the technical-indicator scoring engine in
`stock_analyzer_app.py` (`analyze_stocks_complex_with_scoring_consolidated`).
Numeric values are embedded as exact rationals; pandas rows carrying
possibly-NaN indicator columns are embedded as rows of `Option ℚ` fields,
with `dropna` removing every row that has an undefined entry.
-/

namespace StockApp

/-- The fixed vocabulary of boolean trading conditions, in the insertion
order of the `weights` / `conditions` dictionaries in the source. -/
inductive Condition
  | SMA_20_above_SMA_50
  | RSI_below_70
  | MACD_above_signal
  | Close_above_BB_lower
  | RSI_above_70
  | MACD_below_signal
  | ADX_above_25
  | Stoch_K_above_D
  | OBV_increasing
deriving DecidableEq

/-- The dictionary insertion order of the `weights`/`conditions` dicts. -/
def allConditions : List Condition :=
  [Condition.SMA_20_above_SMA_50, Condition.RSI_below_70,
   Condition.MACD_above_signal, Condition.Close_above_BB_lower,
   Condition.RSI_above_70, Condition.MACD_below_signal,
   Condition.ADX_above_25, Condition.Stoch_K_above_D,
   Condition.OBV_increasing]

/-- The base weight dictionary literal (source lines 78-88), re-created on
every loop iteration. -/
def baseWeights : Condition → ℚ
  | Condition.SMA_20_above_SMA_50 => 3/10
  | Condition.RSI_below_70 => 25/100
  | Condition.MACD_above_signal => 3/10
  | Condition.Close_above_BB_lower => 15/100
  | Condition.RSI_above_70 => -(2/10)
  | Condition.MACD_below_signal => -(2/10)
  | Condition.ADX_above_25 => 2/10
  | Condition.Stoch_K_above_D => 15/100
  | Condition.OBV_increasing => 1/10

/-- One in-place dictionary update `w[k] = f(w[k])`. -/
def updW (w : Condition → ℚ) (k : Condition) (f : ℚ → ℚ) : Condition → ℚ :=
  fun c => if c = k then f (w c) else w c

/-- The regime-dependent weight adjustment (source lines 90-95): under high
volatility the loop multiplies `RSI_below_70`, `RSI_above_70` and
`MACD_below_signal` by 1.2 in place, then multiplies
`Close_above_BB_lower` by 0.8; otherwise the dict is left untouched. -/
def adjustWeights (w : Condition → ℚ) (highVol : Bool) : Condition → ℚ :=
  if highVol then
    updW
      ([Condition.RSI_below_70, Condition.RSI_above_70,
        Condition.MACD_below_signal].foldl
        (fun acc k => updW acc k (fun x => x * (12/10))) w)
      Condition.Close_above_BB_lower (fun x => x * (8/10))
  else w

/-- One row of the pandas dataframe after the indicator columns were
assigned (source lines 57-71) but before `dropna`: the raw close is always
present, each indicator column may be NaN (`none`). -/
structure Row where
  close : ℚ
  sma20 : Option ℚ
  sma50 : Option ℚ
  rsi : Option ℚ
  macd : Option ℚ
  macdSignal : Option ℚ
  bbUpper : Option ℚ
  bbLower : Option ℚ
  atr : Option ℚ
  adx : Option ℚ
  stochK : Option ℚ
  stochD : Option ℚ
  obv : Option ℚ
deriving DecidableEq

/-- A row surviving `dropna`: every indicator value is defined. -/
structure CleanRow where
  close : ℚ
  sma20 : ℚ
  sma50 : ℚ
  rsi : ℚ
  macd : ℚ
  macdSignal : ℚ
  bbUpper : ℚ
  bbLower : ℚ
  atr : ℚ
  adx : ℚ
  stochK : ℚ
  stochD : ℚ
  obv : ℚ
deriving DecidableEq

/-- Mask an exactly-zero entry to NaN, as the `df[df != 0.0]` step of
`ta.utils.dropna` does to every numeric column. -/
def maskZero (v : Option ℚ) : Option ℚ :=
  v.bind fun x => if x = 0 then none else some x

/-- A row passes `dropna` iff, after masking, none of its numeric entries
is NaN: `ta.utils.dropna` first masks values ≥ e^709 and values equal to
0.0 to NaN, then drops every row containing a NaN. In this exact-rational
model no value ever reaches e^709, so that masking is a no-op; the
zero-masking is `maskZero`, applied to the close and every indicator
entry. -/
def toClean (r : Row) : Option CleanRow :=
  (maskZero (some r.close)).bind fun cl =>
  (maskZero r.sma20).bind fun s20 =>
  (maskZero r.sma50).bind fun s50 =>
  (maskZero r.rsi).bind fun rs =>
  (maskZero r.macd).bind fun mc =>
  (maskZero r.macdSignal).bind fun ms =>
  (maskZero r.bbUpper).bind fun bu =>
  (maskZero r.bbLower).bind fun bl =>
  (maskZero r.atr).bind fun atrv =>
  (maskZero r.adx).bind fun axv =>
  (maskZero r.stochK).bind fun sk =>
  (maskZero r.stochD).bind fun sd =>
  (maskZero r.obv).bind fun ob =>
  some ⟨cl, s20, s50, rs, mc, ms, bu, bl, atrv, axv, sk, sd, ob⟩

/-- `ta.utils.dropna` (source line 73): mask huge and exactly-zero values
to NaN, then drop every row containing a NaN. -/
def dropna (rows : List Row) : List CleanRow :=
  rows.filterMap toClean

/-- `history['ATR'].mean()`: pandas mean = sum over count (NaN-free after
`dropna`). -/
def atrMean (rows : List CleanRow) : ℚ :=
  (rows.map (fun r => r.atr)).sum / (rows.length : ℚ)

/-- Source lines 75-76: `high_volatility = ATR.iloc[-1] > ATR.mean() * 1.5`,
with `last` the last row of the post-`dropna` history. -/
def highVolatility (rows : List CleanRow) (last : CleanRow) : Bool :=
  decide (last.atr > atrMean rows * (3/2))

/-- The second-to-last row, `iloc[-2]`. -/
def penult (rows : List CleanRow) : Option CleanRow :=
  rows.dropLast.getLast?

/-- The `conditions` dict (source lines 98-109), evaluated on the last
post-`dropna` row; `OBV_increasing` is guarded by `len(history) > 1`. -/
def evalConditions (rows : List CleanRow) (last : CleanRow) : Condition → Bool
  | Condition.SMA_20_above_SMA_50 => decide (last.sma20 > last.sma50)
  | Condition.RSI_below_70 => decide (last.rsi < 70)
  | Condition.MACD_above_signal => decide (last.macd > last.macdSignal)
  | Condition.Close_above_BB_lower => decide (last.close > last.bbLower)
  | Condition.RSI_above_70 => decide (last.rsi > 70)
  | Condition.MACD_below_signal => decide (last.macd < last.macdSignal)
  | Condition.ADX_above_25 => decide (last.adx > 25)
  | Condition.Stoch_K_above_D => decide (last.stochK > last.stochD)
  | Condition.OBV_increasing =>
      if 1 < rows.length then
        match penult rows with
        | some p => decide (last.obv > p.obv)
        | none => false
      else false

/-- The scoring loop (source lines 97, 112-114): `score = 0`, then
`score += weights[c]` for each true condition, in dict order. -/
def computeScore (conds : Condition → Bool) (w : Condition → ℚ) : ℚ :=
  allConditions.foldl (fun s c => if conds c then s + w c else s) 0

/-- `buy_threshold = 0.7`, `*= 1.1` under high volatility (lines 116-120). -/
def buyThreshold (highVol : Bool) : ℚ :=
  if highVol then (7/10) * (11/10) else 7/10

/-- `sell_threshold = 0.3`, `*= 0.9` under high volatility (lines 117-121). -/
def sellThreshold (highVol : Bool) : ℚ :=
  if highVol then (3/10) * (9/10) else 3/10

inductive Signal
  | Buy
  | Sell
  | Hold
  | DontBuy
deriving DecidableEq

/-- The chained conditional of source line 123:
`"Buy" if score >= buy_threshold else "Sell" if score <= sell_threshold
else "Hold" if 0.6 <= score < buy_threshold else "Don't Buy"`. -/
def classifySignal (score : ℚ) (highVol : Bool) : Signal :=
  if score ≥ buyThreshold highVol then Signal.Buy
  else if score ≤ sellThreshold highVol then Signal.Sell
  else if 6/10 ≤ score ∧ score < buyThreshold highVol then Signal.Hold
  else Signal.DontBuy

/-- The per-instrument output record assembled into the consolidated table
(score, signal, condition map, regime flag). -/
structure ScoreResult where
  score : ℚ
  signal : Signal
  conds : Condition → Bool
  highVol : Bool

/-- The message of the `IndexError` pandas raises for `iloc[-1]` on an
empty frame. -/
def idxErr : String := "single positional indexer is out-of-bounds"

/-- The per-instrument evaluation, from the indicator table (source lines
73-123): `dropna`, volatility regime from the last remaining ATR value,
per-iteration weight dict, condition evaluation, score, signal. When
`dropna` leaves no row, `iloc[-1]` raises, modelled as `Except.error`. -/
def evalInstr (raw : List Row) : Except String ScoreResult :=
  let rows := dropna raw
  if h : rows = [] then Except.error idxErr
  else
    let last := rows.getLast h
    let hv := highVolatility rows last
    let w := adjustWeights baseWeights hv
    let conds := evalConditions rows last
    let score := computeScore conds w
    Except.ok ⟨score, classifySignal score hv, conds, hv⟩

/-- The ticker loop (source lines 41-202): an instrument with an empty
fetched history is skipped with a warning (`continue`, lines 46-48); any
exception inside the body hits the handler at lines 197-200, which returns
an empty table, discarding the accumulator. -/
def analyzeBatch (acc : List ScoreResult) : List (List Row) → List ScoreResult
  | [] => acc
  | raw :: rest =>
      if raw.isEmpty then analyzeBatch acc rest
      else
        match evalInstr raw with
        | Except.ok r => analyzeBatch (acc ++ [r]) rest
        | Except.error _ => []

/-- Modelled from the spec: `SMA(window)` is the arithmetic mean of `close`
over the trailing `window` bars, undefined for the first `window-1`
positions. The source computes this via the external `ta` library
(`sma_indicator`), whose code is not part of the repository. -/
def smaAt (closes : List ℚ) (window : ℕ) (i : ℕ) : Option ℚ :=
  if i + 1 < window then none
  else some ((((closes.drop (i + 1 - window)).take window).sum) / (window : ℚ))

/-- The indicator row a single-bar series produces: `SMA_20`/`SMA_50` via
the spec-modelled `smaAt` (undefined, window exceeds history), and every
other windowed indicator likewise undefined per spec §4.1. -/
def oneBarRow : Row :=
  ⟨100, smaAt [100] 20 0, smaAt [100] 50 0,
   none, none, none, none, none, none, none, none, none, none⟩

/-- A row with every numeric entry defined and nonzero (survives
`dropna`, including its zero-masking step). -/
def goodRow : Row :=
  ⟨1, some 1, some 1, some 1, some 1, some 1, some 2, some 1,
   some 1, some 1, some 1, some 1, some 1⟩

/-- A row whose `SMA_20` entry is NaN (as every row of a short history is);
`dropna` removes it. -/
def badRow : Row :=
  ⟨1, none, some 1, some 1, some 1, some 1, some 2, some 1,
   some 1, some 1, some 1, some 1, some 1⟩

/-- First-match evaluation of an ordered rule list, defaulting to
`DontBuy`; used to state the spec side of claim C1. -/
def firstMatch : List (Bool × Signal) → Signal
  | [] => Signal.DontBuy
  | (b, s) :: rest => if b then s else firstMatch rest

/-- Claim C1's wording of the classifier, as an ordered first-match rule
table with named thresholds: base `buy_threshold = 0.70`,
`sell_threshold = 0.30`, multiplied by 1.1 resp. 0.9 under the High
regime. -/
def specClassify (score : ℚ) (highVol : Bool) : Signal :=
  let buy : ℚ := if highVol then (7/10) * (11/10) else 7/10
  let sell : ℚ := if highVol then (3/10) * (9/10) else 3/10
  firstMatch
    [(decide (score ≥ buy), Signal.Buy),
     (decide (score ≤ sell), Signal.Sell),
     (decide (6/10 ≤ score ∧ score < buy), Signal.Hold)]

/-- C1: for every score and every volatility regime, the source's chained
conditional (line 123, with the regime-adjusted thresholds of lines
116-121) returns exactly the first-match precedence of the claim: Buy if
score ≥ buy_threshold, else Sell if score ≤ sell_threshold, else Hold if
0.6 ≤ score < buy_threshold, else Don't-Buy. -/
theorem signal_precedence_refines_spec :
    ∀ (score : ℚ) (hv : Bool), classifySignal score hv = specClassify score hv := by
  intro score hv
  cases hv <;>
    simp only [classifySignal, specClassify, firstMatch, buyThreshold,
      sellThreshold, if_true, if_false, Bool.false_eq_true, decide_eq_true_eq]

/-- C4: the weight adjuster multiplies exactly `RSI_below_70`,
`RSI_above_70` and `MACD_below_signal` by 1.2 and `Close_above_BB_lower`
by 0.8 under the High regime, leaving every other weight unchanged, and
changes nothing under the Normal regime — for every base weight map. -/
theorem weight_adjuster_cases :
    ∀ (w : Condition → ℚ),
      (∀ c, adjustWeights w true c =
        if c = Condition.RSI_below_70 ∨ c = Condition.RSI_above_70 ∨
            c = Condition.MACD_below_signal then w c * (12/10)
        else if c = Condition.Close_above_BB_lower then w c * (8/10)
        else w c) ∧
      (∀ c, adjustWeights w false c = w c) := by
  intro w
  refine ⟨fun c => ?_, fun c => rfl⟩
  cases c <;> simp [adjustWeights, updW]

/-- C6: in both regimes the classifier's thresholds satisfy
`sell_threshold < 0.6 ≤ buy_threshold`, with the concrete values
0.30/0.70 (Normal) and 0.27/0.77 (High). -/
theorem threshold_ordering_invariant :
    (∀ hv : Bool, sellThreshold hv < 6/10 ∧ 6/10 ≤ buyThreshold hv) ∧
    sellThreshold false = 3/10 ∧ buyThreshold false = 7/10 ∧
    sellThreshold true = 27/100 ∧ buyThreshold true = 77/100 := by
  refine ⟨fun hv => ?_, by norm_num [sellThreshold], by norm_num [buyThreshold],
    by norm_num [sellThreshold], by norm_num [buyThreshold]⟩
  cases hv <;> norm_num [sellThreshold, buyThreshold]

/-- Dividing the four affected weights back by their multipliers, the
inverse of the High-regime adjustment; stated by the spec as a round-trip
property test. -/
def unadjust (w : Condition → ℚ) : Condition → ℚ
  | Condition.RSI_below_70 => w Condition.RSI_below_70 / (12/10)
  | Condition.RSI_above_70 => w Condition.RSI_above_70 / (12/10)
  | Condition.MACD_below_signal => w Condition.MACD_below_signal / (12/10)
  | Condition.Close_above_BB_lower => w Condition.Close_above_BB_lower / (8/10)
  | c => w c

/-- C7: adjusting the base weight map for the High regime and then
dividing the four affected weights by their multipliers reproduces the
base map within 1e-9 (in this exact-rational model the round trip is in
fact exact). -/
theorem weight_adjust_round_trip :
    ∀ c, |unadjust (adjustWeights baseWeights true) c - baseWeights c|
      ≤ 1/1000000000 := by
  intro c
  cases c <;> norm_num +decide [unadjust, adjustWeights, updW, baseWeights]

/-- C3: for every nonempty post-`dropna` history, the volatility regime is
High exactly when the most recent ATR value strictly exceeds
`mean(ATR) * 1.5`; at exact equality the regime is Normal. -/
theorem regime_strict_threshold :
    ∀ (rows : List CleanRow) (h : rows ≠ []),
      (highVolatility rows (rows.getLast h) = true ↔
        (rows.getLast h).atr > atrMean rows * (3/2)) ∧
      ((rows.getLast h).atr = atrMean rows * (3/2) →
        highVolatility rows (rows.getLast h) = false) := by
  intro rows h
  constructor
  · simp [highVolatility]
  · intro he
    simp [highVolatility, he]

/-- A concrete clean row with every indicator value equal to `v`. -/
def constRow (v : ℚ) : CleanRow :=
  ⟨v, v, v, v, v, v, v, v, v, v, v, v, v⟩

/-- Witness for C3: on the two-row history with ATR values 1 and 3 the
mean is 2, the threshold 3, the last ATR equals the threshold exactly,
and the regime is Normal. -/
theorem regime_strict_threshold_witness :
    highVolatility [constRow 1, constRow 3] (([constRow 1, constRow 3]).getLast (by simp)) = false := by
  have h := regime_strict_threshold [constRow 1, constRow 3] (by simp)
  exact h.2 (by norm_num [constRow, atrMean])

/-- Folding score accumulation over a condition list equals the starting
value plus the sum of the weights of the true conditions. -/
lemma foldl_score_eq (conds : Condition → Bool) (w : Condition → ℚ) :
    ∀ (l : List Condition) (a : ℚ),
      l.foldl (fun s c => if conds c then s + w c else s) a
        = a + ((l.filter (fun c => conds c)).map w).sum := by
  intro l
  induction l with
  | nil => simp
  | cons c t ih =>
      intro a
      by_cases hc : conds c <;>
        simp [List.filter_cons, hc, ih, add_assoc]

/-- The condition set that is true exactly on the two bearish conditions. -/
def bearOnly : Condition → Bool
  | Condition.RSI_above_70 => true
  | Condition.MACD_below_signal => true
  | _ => false

/-- The condition set that is true on every condition except the two
bearish ones. -/
def bullOnly : Condition → Bool
  | Condition.RSI_above_70 => false
  | Condition.MACD_below_signal => false
  | _ => true

/-- C5: the score is exactly the sum of the adjusted weights of the true
conditions, and it is not clamped to [0,1]: with only the bearish
conditions true it is negative, and with all bullish conditions true it
exceeds 1. -/
theorem score_is_sum_of_true_weights :
    (∀ (conds : Condition → Bool) (w : Condition → ℚ),
      computeScore conds w = ((allConditions.filter (fun c => conds c)).map w).sum) ∧
    computeScore bearOnly (adjustWeights baseWeights false) < 0 ∧
    1 < computeScore bullOnly (adjustWeights baseWeights false) := by
  refine ⟨fun conds w => ?_, by norm_num [computeScore, allConditions, bearOnly,
    adjustWeights, baseWeights], by norm_num [computeScore, allConditions, bullOnly,
    adjustWeights, baseWeights]⟩
  simpa using foldl_score_eq conds w allConditions 0

/-- The weight maps used across a batch: each loop iteration re-creates the
weight dict literal and adjusts it for that instrument's regime. -/
def batchWeightMaps (regimes : List Bool) : List (Condition → ℚ) :=
  regimes.map (fun hv => adjustWeights baseWeights hv)

/-- C9: the base weight map is the fixed constant below, and the weight map
used for the i-th instrument of a batch is derived from that same constant
and only the i-th instrument's regime — earlier instruments' regimes never
leak in. -/
theorem base_weights_constant_per_eval :
    baseWeights Condition.SMA_20_above_SMA_50 = 3/10 ∧
    baseWeights Condition.RSI_below_70 = 25/100 ∧
    baseWeights Condition.MACD_above_signal = 3/10 ∧
    baseWeights Condition.Close_above_BB_lower = 15/100 ∧
    baseWeights Condition.RSI_above_70 = -(2/10) ∧
    baseWeights Condition.MACD_below_signal = -(2/10) ∧
    baseWeights Condition.ADX_above_25 = 2/10 ∧
    baseWeights Condition.Stoch_K_above_D = 15/100 ∧
    baseWeights Condition.OBV_increasing = 1/10 ∧
    ∀ (regimes : List Bool) (i : ℕ),
      (batchWeightMaps regimes)[i]? =
        (regimes[i]?).map (fun hv => adjustWeights baseWeights hv) := by
  refine ⟨rfl, rfl, rfl, rfl, rfl, rfl, rfl, rfl, rfl, fun regimes i => ?_⟩
  simp [batchWeightMaps]

/-- C10: the opposing condition pairs are mutually exclusive on every
post-`dropna` row: `RSI_below_70`/`RSI_above_70` are never both true and
are both false at RSI exactly 70, and `MACD_above_signal`/
`MACD_below_signal` are never both true and are both false when MACD
equals its signal line. -/
theorem opposing_pairs_exclusive :
    ∀ (rows : List CleanRow) (last : CleanRow),
      (¬(evalConditions rows last Condition.RSI_below_70 = true ∧
         evalConditions rows last Condition.RSI_above_70 = true)) ∧
      (¬(evalConditions rows last Condition.MACD_above_signal = true ∧
         evalConditions rows last Condition.MACD_below_signal = true)) ∧
      (last.rsi = 70 →
        evalConditions rows last Condition.RSI_below_70 = false ∧
        evalConditions rows last Condition.RSI_above_70 = false) ∧
      (last.macd = last.macdSignal →
        evalConditions rows last Condition.MACD_above_signal = false ∧
        evalConditions rows last Condition.MACD_below_signal = false) := by
  intro rows last
  refine ⟨?_, ?_, ?_, ?_⟩
  · rintro ⟨h1, h2⟩
    simp only [evalConditions, decide_eq_true_eq] at h1 h2
    exact absurd (h1.trans h2) (lt_irrefl _)
  · rintro ⟨h1, h2⟩
    simp only [evalConditions, decide_eq_true_eq] at h1 h2
    exact absurd (h2.trans h1) (lt_irrefl _)
  · intro he
    simp [evalConditions, he]
  · intro he
    simp [evalConditions, he]

/-- Witness for C10: on a concrete row with RSI exactly 70 and MACD equal
to its signal line, all four pair conditions evaluate false. -/
theorem opposing_pairs_exclusive_witness :
    evalConditions [] (constRow 70) Condition.RSI_below_70 = false ∧
    evalConditions [] (constRow 70) Condition.RSI_above_70 = false ∧
    evalConditions [] (constRow 70) Condition.MACD_above_signal = false ∧
    evalConditions [] (constRow 70) Condition.MACD_below_signal = false := by
  have h := opposing_pairs_exclusive [] (constRow 70)
  obtain ⟨hr1, hr2⟩ := h.2.2.1 (by norm_num [constRow])
  obtain ⟨hm1, hm2⟩ := h.2.2.2 (by norm_num [constRow])
  exact ⟨hr1, hr2, hm1, hm2⟩

/-- C2 counterexample: in the batch whose first instrument fails (all its
rows are dropped, so `iloc[-1]` raises) and whose second instrument is
perfectly evaluable, the handler returns an empty result set — the second
instrument is not evaluated into the results, though on its own it would
produce exactly one result. The claim that no single failure aborts the
batch is therefore false. -/
theorem batch_abort_on_single_failure :
    analyzeBatch [] [[badRow], [goodRow]] = [] ∧
    (analyzeBatch [] [[goodRow]]).length = 1 := by
  exact ⟨rfl, rfl⟩

/-- C2 amended: an instrument whose fetched history is empty is skipped
with a warning and the rest of the batch proceeds; but an instrument whose
evaluation raises makes the exception handler return an empty result set,
aborting the batch and discarding even previously accumulated results. -/
theorem batch_skip_empty_abort_on_error :
    ∀ (acc : List ScoreResult) (raw : List Row) (rest : List (List Row)) (e : String),
      analyzeBatch acc ([] :: rest) = analyzeBatch acc rest ∧
      (raw ≠ [] → evalInstr raw = Except.error e →
        analyzeBatch acc (raw :: rest) = []) := by
  intro acc raw rest e
  refine ⟨rfl, fun hne herr => ?_⟩
  have hemp : raw.isEmpty = false := by
    cases raw with
    | nil => exact absurd rfl hne
    | cons a t => rfl
  simp [analyzeBatch, hemp, herr]

/-- Witness for the amended C2: the empty-history skip and the
error-aborts-batch behavior at concrete inputs. -/
theorem batch_skip_abort_witness :
    analyzeBatch [] ([] :: [[goodRow]]) = analyzeBatch [] [[goodRow]] ∧
    analyzeBatch [] ([badRow] :: [[goodRow]]) = [] :=
  ⟨(batch_skip_empty_abort_on_error [] [badRow] [[goodRow]] idxErr).1,
   (batch_skip_empty_abort_on_error [] [badRow] [[goodRow]] idxErr).2
     (by simp [badRow]) rfl⟩

/-- C8 counterexample: for the single-bar series (close 100), the
spec-modelled 20-bar SMA is undefined, and the per-instrument evaluation
returns the `iloc` index error — it raises instead of resolving to a
Don't-Buy result. -/
theorem single_bar_eval_errors :
    oneBarRow.sma20 = smaAt [oneBarRow.close] 20 0 ∧
    evalInstr [oneBarRow] = Except.error idxErr := by
  exact ⟨rfl, rfl⟩

/-- C8 amended: on a series of exactly one bar the windowed `SMA_20` is
undefined, so `dropna` removes the only row, and the per-instrument
evaluation raises the `iloc[-1]` index error (caught at the batch
boundary, aborting the batch); it does not return a Don't-Buy signal. -/
theorem single_bar_amended :
    ∀ (c : ℚ) (row : Row), row.sma20 = smaAt [c] 20 0 →
      row.sma20 = none ∧ dropna [row] = [] ∧
      evalInstr [row] = Except.error idxErr := by
  intro c row h
  have hn : row.sma20 = none := by
    rw [h]
    simp [smaAt]
  have hmz : maskZero row.sma20 = none := by rw [hn]; rfl
  have hc : toClean row = none := by
    unfold toClean
    cases hmc : maskZero (some row.close) with
    | none => rfl
    | some cl => simp [hmz]
  have hd : dropna [row] = [] := by
    simp [dropna, List.filterMap, hc]
  refine ⟨hn, hd, ?_⟩
  simp [evalInstr, hd]

/-- Witness for the amended C8 at the concrete single-bar series. -/
theorem single_bar_amended_witness :
    oneBarRow.sma20 = none ∧ dropna [oneBarRow] = [] ∧
    evalInstr [oneBarRow] = Except.error idxErr :=
  single_bar_amended 100 oneBarRow rfl

end StockApp
